import Mathlib

/-!
Shallow embedding of the sample-app HTTP service (`src/main.go`) of this
repository: the three request handlers (`healthHandler`, `workHandler`,
`metricsHandler`), the work simulator (`simulateWork`), and the startup
control flow (`initTelemetry`, `main`).

Randomness model: Go's package-level `math/rand` source is modelled as two
streams of raw draws, one feeding `rand.Intn` calls (reduced into range with
`%`) and one feeding `rand.Float64` calls (rationals; uniform draws lie in
`[0,1)`).  Wall-clock time (span durations, histogram observation values) is
not modelled; the *number* of histogram observations and the blocking
duration chosen by the simulator are.  Go `float64` arithmetic is modelled
exactly over `ℚ`; `%.2f` formatting is modelled as rounding to the nearest
hundredth with ties to even, which is how Go renders the values this program
prints.
-/

namespace SampleApp

/-- Model of the package-level `math/rand` source as consumed by
`src/main.go`: `ints` feeds `rand.Intn` calls and `floats` feeds
`rand.Float64` calls, each call consuming one element. -/
structure Rng where
  ints : List Nat
  floats : List ℚ
deriving DecidableEq

/-- `rand.Intn n`: the next value of the integer stream, reduced into `[0, n)`. -/
def randIntn (n : Nat) (g : Rng) : Nat × Rng :=
  (g.ints.headD 0 % n, { g with ints := g.ints.tail })

/-- `rand.Float64`: the next value of the float stream. -/
def randFloat64 (g : Rng) : ℚ × Rng :=
  (g.floats.headD 0, { g with floats := g.floats.tail })

/-- Attribute values this program attaches to spans and metric events
(`attribute.String/Int/Bool/Float64`). -/
inductive AttrValue where
  | str (s : String)
  | int (n : Int)
  | bool (b : Bool)
  | float (q : ℚ)
deriving DecidableEq

/-- A span: a named unit of traced work with its attached attributes,
in attachment order. -/
structure Span where
  name : String
  attrs : List (String × AttrValue)
deriving DecidableEq

/-- An HTTP response as built by a handler: status code, body, and the
headers the handler itself set. -/
structure Response where
  status : Nat
  body : String
  headers : List (String × String)
deriving DecidableEq

/-- One `requestCounter.Add` event (`http_requests_total`). -/
structure CounterAdd where
  name : String
  value : Int
  attrs : List (String × AttrValue)
deriving DecidableEq

/-- One `requestDuration.Record` event (`http_request_duration_seconds`);
the observed wall-clock value is not modelled, its tags are. -/
structure HistogramRecord where
  name : String
  attrs : List (String × AttrValue)
deriving DecidableEq

/-- Result of `simulateWork`: the mutated span from the context, the number
of milliseconds slept, and the log lines emitted.  There is no error
component: the function returns nothing to its caller. -/
structure SimResult where
  span : Span
  sleptMs : Nat
  logs : List String
deriving DecidableEq

/-- Everything one handler invocation produces: the spans it started
(outermost first), the HTTP response, the counter increments, the histogram
observations, and the log lines. -/
structure HandlerOutput where
  spans : List Span
  response : Response
  counterAdds : List CounterAdd
  histRecords : List HistogramRecord
  logs : List String
deriving DecidableEq

/-- `simulateWork` from `src/main.go:104-121`: draw a duration from
`rand.Intn(500)` milliseconds, sleep for it, attach `work.type` and
`work.duration_ms` to the span carried by the context, and with a fresh
`rand.Intn(10) == 0` draw attach `error = true` and log. -/
def simulateWork (span0 : Span) (g : Rng) : SimResult × Rng :=
  let (d, g1) := randIntn 500 g
  let span1 : Span :=
    { span0 with attrs := span0.attrs ++
        [("work.type", AttrValue.str "processing"),
         ("work.duration_ms", AttrValue.int (d : Int))] }
  let (e, g2) := randIntn 10 g1
  if e = 0 then
    ({ span := { span1 with attrs := span1.attrs ++ [("error", AttrValue.bool true)] },
       sleptMs := d, logs := ["Simulated error occurred"] }, g2)
  else
    ({ span := span1, sleptMs := d, logs := [] }, g2)

/-- `healthHandler` from `src/main.go:123-143`: span `health_check`, one
counter increment tagged with the request method and `status=200`, response
`200 OK` with body `"OK"` and no header set, one histogram observation. -/
def healthHandler (method : String) (g : Rng) : HandlerOutput × Rng :=
  ({ spans := [{ name := "health_check", attrs := [] }],
     response := { status := 200, body := "OK", headers := [] },
     counterAdds := [{ name := "http_requests_total", value := 1,
                        attrs := [("method", AttrValue.str method),
                                ("endpoint", AttrValue.str "/health"),
                                ("status", AttrValue.str "200")] }],
     histRecords := [{ name := "http_request_duration_seconds",
                        attrs := [("method", AttrValue.str method),
                                ("endpoint", AttrValue.str "/health")] }],
     logs := [] }, g)

/-- `workHandler` from `src/main.go:145-184`: span `do_work` with synthetic
`user.id` and `request.id`, child span `nested_operation` run through
`simulateWork`, then a `rand.Intn(20) == 0` branch choosing between
`500 / "Internal Server Error"` (with `error=true` on the request span) and
`200 / "Work completed successfully"`; one counter increment tagged with the
branch status and one histogram observation on every path. -/
def workHandler (method : String) (g : Rng) : HandlerOutput × Rng :=
  let (uid, g1) := randIntn 100 g
  let (rid, g2) := randIntn 10000 g1
  let span0 : Span :=
    { name := "do_work",
      attrs := [("user.id", AttrValue.str ("user-" ++ toString uid)),
                ("request.id", AttrValue.str ("req-" ++ toString rid))] }
  let childSpan : Span := { name := "nested_operation", attrs := [] }
  let (sim, g3) := simulateWork childSpan g2
  let (b, g4) := randIntn 20 g3
  let status : String := if b = 0 then "500" else "200"
  let resp : Response :=
    if b = 0 then { status := 500, body := "Internal Server Error", headers := [] }
    else { status := 200, body := "Work completed successfully", headers := [] }
  let span1 : Span :=
    if b = 0 then { span0 with attrs := span0.attrs ++ [("error", AttrValue.bool true)] }
    else span0
  ({ spans := [span1, sim.span],
     response := resp,
     counterAdds := [{ name := "http_requests_total", value := 1,
                        attrs := [("method", AttrValue.str method),
                               ("endpoint", AttrValue.str "/work"),
                               ("status", AttrValue.str status)] }],
     histRecords := [{ name := "http_request_duration_seconds",
                        attrs := [("method", AttrValue.str method),
                                ("endpoint", AttrValue.str "/work")] }],
     logs := sim.logs }, g4)

/-- Round a rational to the nearest integer, ties to even: the rounding Go
applies when formatting with a fixed number of fractional digits. -/
def roundHalfEven (q : ℚ) : ℤ :=
  let fl := ⌊q⌋
  let fr := q - (fl : ℚ)
  if fr < 1 / 2 then fl
  else if 1 / 2 < fr then fl + 1
  else if fl % 2 = 0 then fl else fl + 1

/-- Render a nonnegative count of hundredths with two digits after the
point, as Go prints a nonnegative value with `%.2f`. -/
def renderHundredths (n : Nat) : String :=
  toString (n / 100) ++ "." ++ (if n % 100 < 10 then "0" else "") ++ toString (n % 100)

/-- Go's `%.2f` on the nonnegative values this program prints: round to the
nearest hundredth and render with exactly two fractional digits. -/
def fmt2 (q : ℚ) : String :=
  renderHundredths (roundHalfEven (q * 100)).toNat

/-- The numeric value denoted by the `%.2f` rendering of a nonnegative `q`:
what a JSON parser reads back from `fmt2 q`. -/
def fmt2val (q : ℚ) : ℚ :=
  ((roundHalfEven (q * 100)).toNat : ℚ) / 100

/-- `metricsHandler` from `src/main.go:186-216`: span `metrics`, two fresh
`rand.Float64` draws scaled to `cpuUsage ∈ [0,100)` and
`memoryUsage ∈ [0, 2^30)`, attached as float attributes; one counter
increment tagged `status=200`; response `200` with `Content-Type:
application/json` and body built by
`fmt.Fprintf(w, "\x7b\x22cpu_usage\x22: %.2f, \x22memory_usage\x22: %.2f\x7d", ...)`;
one histogram observation. -/
def metricsHandler (method : String) (g : Rng) : HandlerOutput × Rng :=
  let (c, g1) := randFloat64 g
  let (m, g2) := randFloat64 g1
  let cpuUsage := c * 100
  let memoryUsage := m * 1024 * 1024 * 1024
  ({ spans := [{ name := "metrics",
                 attrs := [("system.cpu.usage", AttrValue.float cpuUsage),
                           ("system.memory.usage", AttrValue.float memoryUsage)] }],
     response := { status := 200,
                   body := "\x7b\x22cpu_usage\x22: " ++ fmt2 cpuUsage ++
                     ", \x22memory_usage\x22: " ++ fmt2 memoryUsage ++ "\x7d",
                   headers := [("Content-Type", "application/json")] },
     counterAdds := [{ name := "http_requests_total", value := 1,
                        attrs := [("method", AttrValue.str method),
                                ("endpoint", AttrValue.str "/metrics"),
                                ("status", AttrValue.str "200")] }],
     histRecords := [{ name := "http_request_duration_seconds",
                        attrs := [("method", AttrValue.str method),
                                ("endpoint", AttrValue.str "/metrics")] }],
     logs := [] }, g2)

/-- The three paths registered on the default mux in `main`
(`src/main.go:223-225`).  `http.HandleFunc` patterns are path-only: no
HTTP-method restriction is imposed by the router. -/
inductive Endpoint where
  | health
  | work
  | metrics
deriving DecidableEq

/-- An incoming HTTP request as far as the handlers inspect it: the routed
endpoint and the request method string (`r.Method`). -/
structure Request where
  endpoint : Endpoint
  method : String
deriving DecidableEq

/-- Dispatch one request to its handler, as the mux does. -/
def handle (r : Request) (g : Rng) : HandlerOutput × Rng :=
  match r.endpoint with
  | Endpoint.health => healthHandler r.method g
  | Endpoint.work => workHandler r.method g
  | Endpoint.metrics => metricsHandler r.method g

/-- Serve a sequence of requests.  The only state threaded from one request
to the next is the shared random source: no handler writes any other state
read by a later invocation. -/
def serve : List Request → Rng → List HandlerOutput
  | [], _ => []
  | r :: rs, g =>
    let (o, g1) := handle r g
    o :: serve rs g1

/-- The state of the shared random source after a sequence of requests. -/
def rngAfter : List Request → Rng → Rng
  | [], g => g
  | r :: rs, g => rngAfter rs (handle r g).2

/-- Outcome of each fallible construction step inside `initTelemetry`
(`src/main.go:33-102`).  The constructions themselves are library calls
external to this repository; only their success or failure feeds the
control flow under verification. -/
structure InitSteps where
  resourceNew : Except String Unit
  traceExporterNew : Except String Unit
  metricExporterNew : Except String Unit
  int64Counter : Except String Unit
  float64Histogram : Except String Unit

/-- The four package-level telemetry handles of `src/main.go:26-31`; `none`
models a nil (uninitialized) handle. -/
structure Telemetry where
  tracer : Option String
  meter : Option String
  requestCounter : Option String
  requestDuration : Option String
deriving DecidableEq

/-- `initTelemetry` from `src/main.go:33-102`: each construction step in
order; the first failing step aborts with a wrapped error, and on success
all four handles are set. -/
def initTelemetry (s : InitSteps) : Except String Telemetry :=
  match s.resourceNew with
  | Except.error e => Except.error ("failed to create resource: " ++ e)
  | Except.ok _ =>
  match s.traceExporterNew with
  | Except.error e => Except.error ("failed to create trace exporter: " ++ e)
  | Except.ok _ =>
  match s.metricExporterNew with
  | Except.error e => Except.error ("failed to create metric exporter: " ++ e)
  | Except.ok _ =>
  match s.int64Counter with
  | Except.error e => Except.error ("failed to create counter: " ++ e)
  | Except.ok _ =>
  match s.float64Histogram with
  | Except.error e => Except.error ("failed to create histogram: " ++ e)
  | Except.ok _ =>
    Except.ok { tracer := some "sample-app", meter := some "sample-app",
                requestCounter := some "http_requests_total",
                requestDuration := some "http_request_duration_seconds" }

/-- How the process run ends: `fatalExit` is `log.Fatalf` (log, then exit
with the non-zero status 1); `serving` is the process blocked in
`http.ListenAndServe` on the resolved port. -/
inductive ProcessOutcome where
  | fatalExit (msg : String)
  | serving (port : String)
deriving DecidableEq

/-- `main` from `src/main.go:218-236`: initialize telemetry (fatal on
error), resolve the port from the environment (default `"8080"`), then
listen (fatal if the listener fails). -/
def mainProcess (s : InitSteps) (portEnv : String) (listen : Except String Unit) :
    ProcessOutcome :=
  match initTelemetry s with
  | Except.error e => ProcessOutcome.fatalExit ("Failed to initialize telemetry: " ++ e)
  | Except.ok _ =>
    let port := if portEnv = "" then "8080" else portEnv
    match listen with
    | Except.error e => ProcessOutcome.fatalExit ("Server failed to start: " ++ e)
    | Except.ok _ => ProcessOutcome.serving port

/-- C2: for every request handled by the health handler, regardless of HTTP
method or any other request data, the response status is 200, the body is
exactly `"OK"`, and the handler sets no header (in particular no
Content-Type). -/
theorem healthHandler_always_ok (method : String) (g : Rng) :
    (healthHandler method g).1.response.status = 200 ∧
    (healthHandler method g).1.response.body = "OK" ∧
    (healthHandler method g).1.response.headers = [] :=
  ⟨rfl, rfl, rfl⟩

/-- C1: the work handler's response is exactly one of two outcomes, decided
by its own uniform draw over `{0, ..., 19}` (the fifth `rand.Intn` value
consumed, `d % 20`): on 0, status 500 with body exactly
`"Internal Server Error"` and `error = true` attached to the request span;
otherwise status 200 with body exactly `"Work completed successfully"`; no
third body or status is possible. -/
theorem workHandler_two_outcomes (method : String) (a b c e d : Nat)
    (rest : List Nat) (fs : List ℚ) :
    ((workHandler method ⟨a :: b :: c :: e :: d :: rest, fs⟩).1.response =
        { status := 500, body := "Internal Server Error", headers := [] } ↔
      d % 20 = 0) ∧
    ((workHandler method ⟨a :: b :: c :: e :: d :: rest, fs⟩).1.response =
        { status := 200, body := "Work completed successfully", headers := [] } ↔
      d % 20 ≠ 0) ∧
    (d % 20 = 0 →
      ("error", AttrValue.bool true) ∈
        ((workHandler method ⟨a :: b :: c :: e :: d :: rest, fs⟩).1.spans.headD
          { name := "", attrs := [] }).attrs) ∧
    ((workHandler method ⟨a :: b :: c :: e :: d :: rest, fs⟩).1.response =
        { status := 500, body := "Internal Server Error", headers := [] } ∨
      (workHandler method ⟨a :: b :: c :: e :: d :: rest, fs⟩).1.response =
        { status := 200, body := "Work completed successfully", headers := [] }) := by
  by_cases he : e % 10 = 0 <;> by_cases hd : d % 20 = 0 <;>
    simp [workHandler, simulateWork, randIntn, he, hd]

/-- C1 witness: a concrete run (branch draw 1, hence the 200 outcome). -/
theorem workHandler_two_outcomes_witness :
    (1 % 20 = 0 →
      ("error", AttrValue.bool true) ∈
        ((workHandler "GET" ⟨[0, 0, 0, 0, 1], []⟩).1.spans.headD
          { name := "", attrs := [] }).attrs) ∧
    ((workHandler "GET" ⟨[0, 0, 0, 0, 1], []⟩).1.response =
        { status := 500, body := "Internal Server Error", headers := [] } ∨
      (workHandler "GET" ⟨[0, 0, 0, 0, 1], []⟩).1.response =
        { status := 200, body := "Work completed successfully", headers := [] }) :=
  ⟨(workHandler_two_outcomes "GET" 0 0 0 0 1 [] []).2.2.1,
   (workHandler_two_outcomes "GET" 0 0 0 0 1 [] []).2.2.2⟩

/-- C4: every invocation of any of the three handlers, on every
control-flow path (including the work handler's 500 branch), emits exactly
one `http_requests_total` increment and exactly one
`http_request_duration_seconds` observation. -/
theorem handlers_one_counter_one_histogram (method : String) (g : Rng) :
    (healthHandler method g).1.counterAdds.length = 1 ∧
    (healthHandler method g).1.histRecords.length = 1 ∧
    (workHandler method g).1.counterAdds.length = 1 ∧
    (workHandler method g).1.histRecords.length = 1 ∧
    (metricsHandler method g).1.counterAdds.length = 1 ∧
    (metricsHandler method g).1.histRecords.length = 1 := by
  have hw : (workHandler method g).1.counterAdds.length = 1 ∧
      (workHandler method g).1.histRecords.length = 1 := by
    by_cases he : g.ints.tail.tail.tail.headD 0 % 10 = 0 <;>
      simp [workHandler, simulateWork, randIntn, he]
  exact ⟨rfl, rfl, hw.1, hw.2, rfl, rfl⟩

/-- C5: `simulateWork` blocks for `a % 500 ∈ [0, 500)` milliseconds (its
first fresh draw), appends `work.type = "processing"` and an integer
`work.duration_ms` equal to the sampled millisecond count to the span
carried by the context, and exactly when its second, independent draw
satisfies `b % 10 = 0` (probability 1/10) it additionally appends
`error = true` and emits one log line; it is a total function returning no
error to its caller. -/
theorem simulateWork_spec (span0 : Span) (a b : Nat) (rest : List Nat) (fs : List ℚ) :
    (simulateWork span0 ⟨a :: b :: rest, fs⟩).1.sleptMs = a % 500 ∧
    (simulateWork span0 ⟨a :: b :: rest, fs⟩).1.sleptMs < 500 ∧
    (simulateWork span0 ⟨a :: b :: rest, fs⟩).1.span.name = span0.name ∧
    (simulateWork span0 ⟨a :: b :: rest, fs⟩).1.span.attrs =
      span0.attrs ++
        ([("work.type", AttrValue.str "processing"),
          ("work.duration_ms", AttrValue.int ((a % 500 : Nat) : Int))] ++
         (if b % 10 = 0 then [("error", AttrValue.bool true)] else [])) ∧
    (simulateWork span0 ⟨a :: b :: rest, fs⟩).1.logs =
      (if b % 10 = 0 then ["Simulated error occurred"] else []) ∧
    (simulateWork span0 ⟨a :: b :: rest, fs⟩).2 = ⟨rest, fs⟩ := by
  have h500 : a % 500 < 500 := Nat.mod_lt _ (by norm_num)
  by_cases hb : b % 10 = 0 <;>
    simp [simulateWork, randIntn, hb, h500, List.append_assoc]

/-- C6: in the work handler the HTTP response, the counter increment (with
its status tag) and the histogram observation are unchanged when only the
work simulator's 1-in-10 error draw `e` differs: the simulator's draw never
reaches the response-determining control flow. -/
theorem workHandler_response_independent_of_sim_draw (method : String)
    (a b c e1 e2 d : Nat) (rest : List Nat) (fs : List ℚ) :
    (workHandler method ⟨a :: b :: c :: e1 :: d :: rest, fs⟩).1.response =
      (workHandler method ⟨a :: b :: c :: e2 :: d :: rest, fs⟩).1.response ∧
    (workHandler method ⟨a :: b :: c :: e1 :: d :: rest, fs⟩).1.counterAdds =
      (workHandler method ⟨a :: b :: c :: e2 :: d :: rest, fs⟩).1.counterAdds ∧
    (workHandler method ⟨a :: b :: c :: e1 :: d :: rest, fs⟩).1.histRecords =
      (workHandler method ⟨a :: b :: c :: e2 :: d :: rest, fs⟩).1.histRecords := by
  by_cases h1 : e1 % 10 = 0 <;> by_cases h2 : e2 % 10 = 0 <;>
    simp [workHandler, simulateWork, randIntn, h1, h2]

/-- C9: the handlers impose no HTTP-method restriction: for every method
string (PUT, DELETE, ...), each endpoint produces the same response and
consumes the same randomness as it does for GET, and every counter
increment carries the request's actual method string as its `method`
attribute. -/
theorem handlers_method_agnostic (ep : Endpoint) (method : String) (g : Rng) :
    (handle ⟨ep, method⟩ g).1.response = (handle ⟨ep, "GET"⟩ g).1.response ∧
    (handle ⟨ep, method⟩ g).2 = (handle ⟨ep, "GET"⟩ g).2 ∧
    ∀ ca ∈ (handle ⟨ep, method⟩ g).1.counterAdds,
      ("method", AttrValue.str method) ∈ ca.attrs := by
  cases ep with
  | health => exact ⟨rfl, rfl, by simp [handle, healthHandler]⟩
  | work =>
    refine ⟨?_, ?_, ?_⟩ <;>
      by_cases he : g.ints.tail.tail.tail.headD 0 % 10 = 0 <;>
      by_cases hd : g.ints.tail.tail.tail.tail.headD 0 % 20 = 0 <;>
      simp [handle, workHandler, simulateWork, randIntn, he, hd]
  | metrics => exact ⟨rfl, rfl, by simp [handle, metricsHandler]⟩

/-- C9 witness: a DELETE request to the work endpoint on a concrete
random-source state. -/
theorem handlers_method_agnostic_witness :
    (handle ⟨Endpoint.work, "DELETE"⟩ ⟨[1, 2, 3, 4, 5], []⟩).1.response =
      (handle ⟨Endpoint.work, "GET"⟩ ⟨[1, 2, 3, 4, 5], []⟩).1.response ∧
    (handle ⟨Endpoint.work, "DELETE"⟩ ⟨[1, 2, 3, 4, 5], []⟩).2 =
      (handle ⟨Endpoint.work, "GET"⟩ ⟨[1, 2, 3, 4, 5], []⟩).2 ∧
    ∀ ca ∈ (handle ⟨Endpoint.work, "DELETE"⟩ ⟨[1, 2, 3, 4, 5], []⟩).1.counterAdds,
      ("method", AttrValue.str "DELETE") ∈ ca.attrs :=
  handlers_method_agnostic Endpoint.work "DELETE" ⟨[1, 2, 3, 4, 5], []⟩

/-- C10: the work handler produces exactly the parent span `do_work` and
the child span `nested_operation`; `simulateWork`'s attributes (`work.type`,
`work.duration_ms`, and its 1-in-10 `error = true`) land on the child span —
the span carried by the context passed to `simulateWork` — while the 1-in-20
HTTP-500 `error = true` lands on the parent span, so the two error
annotations always land on different spans. -/
theorem workHandler_error_attrs_on_distinct_spans (method : String)
    (a b c e d : Nat) (rest : List Nat) (fs : List ℚ) (P C : Span)
    (h : (workHandler method ⟨a :: b :: c :: e :: d :: rest, fs⟩).1.spans = [P, C]) :
    P.name = "do_work" ∧ C.name = "nested_operation" ∧
    ("work.type", AttrValue.str "processing") ∈ C.attrs ∧
    ("work.duration_ms", AttrValue.int ((c % 500 : Nat) : Int)) ∈ C.attrs ∧
    ("work.type", AttrValue.str "processing") ∉ P.attrs ∧
    ("work.duration_ms", AttrValue.int ((c % 500 : Nat) : Int)) ∉ P.attrs ∧
    (("error", AttrValue.bool true) ∈ C.attrs ↔ e % 10 = 0) ∧
    (("error", AttrValue.bool true) ∈ P.attrs ↔ d % 20 = 0) := by
  by_cases he : e % 10 = 0 <;> by_cases hd : d % 20 = 0 <;>
    · simp [workHandler, simulateWork, randIntn, he, hd] at h
      obtain ⟨hP, hC⟩ := h
      subst hP
      subst hC
      simp [he, hd]

/-- C10 witness: a concrete run in which both error draws fire, showing the
two `error = true` annotations on the two distinct spans. -/
theorem workHandler_error_attrs_on_distinct_spans_witness :
    (⟨"do_work", [("user.id", AttrValue.str "user-0"),
                  ("request.id", AttrValue.str "req-0"),
                  ("error", AttrValue.bool true)]⟩ : Span).name = "do_work" ∧
    (⟨"nested_operation",
      [("work.type", AttrValue.str "processing"),
       ("work.duration_ms", AttrValue.int ((0 % 500 : Nat) : Int)),
       ("error", AttrValue.bool true)]⟩ : Span).name = "nested_operation" ∧
    ("work.type", AttrValue.str "processing") ∈
      (⟨"nested_operation",
        [("work.type", AttrValue.str "processing"),
         ("work.duration_ms", AttrValue.int ((0 % 500 : Nat) : Int)),
         ("error", AttrValue.bool true)]⟩ : Span).attrs ∧
    ("work.duration_ms", AttrValue.int ((0 % 500 : Nat) : Int)) ∈
      (⟨"nested_operation",
        [("work.type", AttrValue.str "processing"),
         ("work.duration_ms", AttrValue.int ((0 % 500 : Nat) : Int)),
         ("error", AttrValue.bool true)]⟩ : Span).attrs ∧
    ("work.type", AttrValue.str "processing") ∉
      (⟨"do_work", [("user.id", AttrValue.str "user-0"),
                    ("request.id", AttrValue.str "req-0"),
                    ("error", AttrValue.bool true)]⟩ : Span).attrs ∧
    ("work.duration_ms", AttrValue.int ((0 % 500 : Nat) : Int)) ∉
      (⟨"do_work", [("user.id", AttrValue.str "user-0"),
                    ("request.id", AttrValue.str "req-0"),
                    ("error", AttrValue.bool true)]⟩ : Span).attrs ∧
    (("error", AttrValue.bool true) ∈
        (⟨"nested_operation",
          [("work.type", AttrValue.str "processing"),
           ("work.duration_ms", AttrValue.int ((0 % 500 : Nat) : Int)),
           ("error", AttrValue.bool true)]⟩ : Span).attrs ↔ 0 % 10 = 0) ∧
    (("error", AttrValue.bool true) ∈
        (⟨"do_work", [("user.id", AttrValue.str "user-0"),
                      ("request.id", AttrValue.str "req-0"),
                      ("error", AttrValue.bool true)]⟩ : Span).attrs ↔ 0 % 20 = 0) :=
  workHandler_error_attrs_on_distinct_spans "GET" 0 0 0 0 0 [] []
    ⟨"do_work", [("user.id", AttrValue.str "user-0"),
                 ("request.id", AttrValue.str "req-0"),
                 ("error", AttrValue.bool true)]⟩
    ⟨"nested_operation",
     [("work.type", AttrValue.str "processing"),
      ("work.duration_ms", AttrValue.int ((0 % 500 : Nat) : Int)),
      ("error", AttrValue.bool true)]⟩
    (by decide)

/-- Serving a single request yields exactly that request's handler output. -/
theorem serve_singleton (r : Request) (g : Rng) : serve [r] g = [(handle r g).1] := by
  rcases hh : handle r g with ⟨o, g1⟩
  simp [serve, hh]

/-- Serving a concatenation of request sequences is serving the first, then
the second from the random-source state the first left behind: the random
source is the only state threaded between requests. -/
theorem serve_append (xs ys : List Request) (g : Rng) :
    serve (xs ++ ys) g = serve xs g ++ serve ys (rngAfter xs g) := by
  induction xs generalizing g with
  | nil => rfl
  | cons r rs ih =>
    rcases hh : handle r g with ⟨o, g1⟩
    simp [serve, rngAfter, hh, ih]

/-- C7: no handler holds state across requests: the output of a request is
a pure function of the request itself and the random-source state at which
it is handled, so any two histories leaving the random source in the same
state give the appended request identical behavior. -/
theorem serve_history_independent (reqs1 reqs2 : List Request) (r : Request)
    (g1 g2 : Rng) (h : rngAfter reqs1 g1 = rngAfter reqs2 g2) :
    serve (reqs1 ++ [r]) g1 = serve reqs1 g1 ++ [(handle r (rngAfter reqs1 g1)).1] ∧
    (serve (reqs1 ++ [r]) g1).getLast? = (serve (reqs2 ++ [r]) g2).getLast? := by
  constructor
  · rw [serve_append, serve_singleton]
  · rw [serve_append, serve_singleton, serve_append, serve_singleton, h]
    simp

/-- C7 witness: two different histories (one health request versus none)
leaving the shared random source untouched, after which an appended work
request behaves identically. -/
theorem serve_history_independent_witness :
    rngAfter [⟨Endpoint.health, "GET"⟩] ⟨[7], []⟩ = rngAfter [] ⟨[7], []⟩ ∧
    (serve ([⟨Endpoint.health, "GET"⟩] ++ [⟨Endpoint.work, "POST"⟩]) ⟨[7], []⟩ =
      serve [⟨Endpoint.health, "GET"⟩] ⟨[7], []⟩ ++
        [(handle ⟨Endpoint.work, "POST"⟩
            (rngAfter [⟨Endpoint.health, "GET"⟩] ⟨[7], []⟩)).1] ∧
    (serve ([⟨Endpoint.health, "GET"⟩] ++ [⟨Endpoint.work, "POST"⟩]) ⟨[7], []⟩).getLast? =
      (serve ([] ++ [⟨Endpoint.work, "POST"⟩]) ⟨[7], []⟩).getLast?) :=
  ⟨rfl, serve_history_independent [⟨Endpoint.health, "GET"⟩] [] ⟨Endpoint.work, "POST"⟩
    ⟨[7], []⟩ ⟨[7], []⟩ rfl⟩

/-- C8: `initTelemetry` returns an error exactly when one of its
construction steps fails, and on success all four telemetry handles are
initialized; if initialization fails, or the listener cannot bind, the
process ends in `log.Fatalf` (logging fatally and exiting non-zero), and it
reaches the serving state only when initialization and the listener both
succeeded — no partial startup. -/
theorem initTelemetry_failure_is_fatal (s : InitSteps) (portEnv : String)
    (listen : Except String Unit) :
    ((initTelemetry s).isOk = false ↔
      (s.resourceNew.isOk = false ∨ s.traceExporterNew.isOk = false ∨
       s.metricExporterNew.isOk = false ∨ s.int64Counter.isOk = false ∨
       s.float64Histogram.isOk = false)) ∧
    (∀ t, initTelemetry s = Except.ok t →
      t.tracer.isSome ∧ t.meter.isSome ∧
      t.requestCounter.isSome ∧ t.requestDuration.isSome) ∧
    ((initTelemetry s).isOk = false →
      ∃ msg, mainProcess s portEnv listen = ProcessOutcome.fatalExit msg) ∧
    (listen.isOk = false →
      ∃ msg, mainProcess s portEnv listen = ProcessOutcome.fatalExit msg) ∧
    (∀ p, mainProcess s portEnv listen = ProcessOutcome.serving p →
      (initTelemetry s).isOk = true ∧ listen.isOk = true) := by
  obtain ⟨r, t, m, c, hst⟩ := s
  cases r <;> cases t <;> cases m <;> cases c <;> cases hst <;> cases listen <;>
    simp [initTelemetry, mainProcess, Except.isOk, Except.toBool]

/-- C8 witness: a run whose trace-exporter construction fails is fatal. -/
theorem initTelemetry_failure_is_fatal_witness :
    (initTelemetry ⟨Except.ok (), Except.error "dial", Except.ok (),
        Except.ok (), Except.ok ()⟩).isOk = false ∧
    ∃ msg, mainProcess ⟨Except.ok (), Except.error "dial", Except.ok (),
        Except.ok (), Except.ok ()⟩ "" (Except.ok ()) =
      ProcessOutcome.fatalExit msg :=
  ⟨rfl, (initTelemetry_failure_is_fatal ⟨Except.ok (), Except.error "dial",
      Except.ok (), Except.ok (), Except.ok ()⟩ "" (Except.ok ())).2.2.1 rfl⟩

/-- `roundHalfEven` differs from the value's floor by at most one. -/
theorem roundHalfEven_bounds (q : ℚ) :
    ⌊q⌋ ≤ roundHalfEven q ∧ roundHalfEven q ≤ ⌊q⌋ + 1 := by
  simp only [roundHalfEven]
  split_ifs <;> omega

/-- The value read back from a two-decimal rendering of a nonnegative
quantity bounded by the integer `N / 100` is nonnegative and at most
`N / 100`: rounding can reach the upper endpoint but not pass it. -/
theorem fmt2val_bounds (q : ℚ) (N : ℕ) (h0 : 0 ≤ q) (h : q * 100 < (N : ℚ)) :
    0 ≤ fmt2val q ∧ fmt2val q ≤ (N : ℚ) / 100 := by
  obtain ⟨hlo, hhi⟩ := roundHalfEven_bounds (q * 100)
  have hq0 : (0 : ℚ) ≤ q * 100 := by positivity
  have hfl0 : 0 ≤ ⌊q * 100⌋ := Int.floor_nonneg.mpr hq0
  have hflN : ⌊q * 100⌋ < (N : ℤ) := by
    rw [Int.floor_lt]
    exact_mod_cast h
  have hR0 : 0 ≤ roundHalfEven (q * 100) := le_trans hfl0 hlo
  have hRN : roundHalfEven (q * 100) ≤ (N : ℤ) := by omega
  have hcast : ((roundHalfEven (q * 100)).toNat : ℚ) ≤ (N : ℚ) := by
    have hz : ((roundHalfEven (q * 100)).toNat : ℤ) ≤ (N : ℤ) := by
      rw [Int.toNat_of_nonneg hR0]
      exact hRN
    exact_mod_cast hz
  constructor
  · unfold fmt2val
    positivity
  · unfold fmt2val
    gcongr

/-- C3 counterexample: at the admissible uniform draw `999999/1000000`
(which lies in `[0,1)`, so `cpuUsage = 99.9999 ∈ [0,100)`), the `%.2f`
rendering in the body reads exactly `100.00`: the numeric `cpu_usage` a
parser reads back equals 100 and is not in `[0, 100)`. -/
theorem metricsHandler_parsed_range_cex :
    (0 : ℚ) ≤ 999999 / 1000000 ∧ (999999 / 1000000 : ℚ) < 1 ∧
    (metricsHandler "GET" ⟨[], [999999 / 1000000, 0]⟩).1.response.body =
      "\x7b\x22cpu_usage\x22: 100.00, \x22memory_usage\x22: 0.00\x7d" ∧
    fmt2val ((999999 / 1000000 : ℚ) * 100) = 100 ∧
    ¬ fmt2val ((999999 / 1000000 : ℚ) * 100) < 100 := by
  refine ⟨by norm_num, by norm_num, ?_, ?_, ?_⟩
  · norm_num [metricsHandler, randFloat64, fmt2, roundHalfEven, renderHundredths]
    decide
  · norm_num [fmt2val, roundHalfEven]
    rw [show Int.toNat 10000 = 10000 from rfl]
    norm_num
  · norm_num [fmt2val, roundHalfEven]
    rw [show Int.toNat 10000 = 10000 from rfl]
    norm_num

/-- C3 (amended): for every request handled by the metrics handler the
status is 200, the Content-Type header is `application/json`, and the body
is exactly the format string with the two fresh draws (`cpuUsage ∈ [0,100)`
and `memoryUsage ∈ [0, 2^30)`) formatted to two decimal places; the numeric
values read back from the body lie in the closed intervals `[0, 100]` and
`[0, 2^30]` — two-decimal rounding can reach the upper endpoints. -/
theorem metricsHandler_spec (method : String) (c m : ℚ) (ints : List Nat)
    (fs : List ℚ) (hc0 : 0 ≤ c) (hc1 : c < 1) (hm0 : 0 ≤ m) (hm1 : m < 1) :
    (metricsHandler method ⟨ints, c :: m :: fs⟩).1.response.status = 200 ∧
    (metricsHandler method ⟨ints, c :: m :: fs⟩).1.response.headers =
      [("Content-Type", "application/json")] ∧
    (metricsHandler method ⟨ints, c :: m :: fs⟩).1.response.body =
      "\x7b\x22cpu_usage\x22: " ++ fmt2 (c * 100) ++
        ", \x22memory_usage\x22: " ++ fmt2 (m * 1024 * 1024 * 1024) ++ "\x7d" ∧
    0 ≤ c * 100 ∧ c * 100 < 100 ∧
    0 ≤ m * 1024 * 1024 * 1024 ∧ m * 1024 * 1024 * 1024 < 2 ^ 30 ∧
    0 ≤ fmt2val (c * 100) ∧ fmt2val (c * 100) ≤ 100 ∧
    0 ≤ fmt2val (m * 1024 * 1024 * 1024) ∧
    fmt2val (m * 1024 * 1024 * 1024) ≤ 2 ^ 30 := by
  have hcpu := fmt2val_bounds (c * 100) 10000 (by positivity)
    (by push_cast; nlinarith)
  have hmem := fmt2val_bounds (m * 1024 * 1024 * 1024) 107374182400 (by positivity)
    (by push_cast; nlinarith)
  refine ⟨rfl, rfl, rfl, by positivity, by nlinarith, by positivity, by nlinarith,
    hcpu.1, ?_, hmem.1, ?_⟩
  · have h := hcpu.2
    norm_num at h
    exact h
  · have h := hmem.2
    norm_num at h
    exact h

/-- C3 witness: the concrete metrics request with draws 1/4 and 1/2. -/
theorem metricsHandler_spec_witness :
    (metricsHandler "GET" ⟨[], [1 / 4, 1 / 2]⟩).1.response.status = 200 ∧
    (metricsHandler "GET" ⟨[], [1 / 4, 1 / 2]⟩).1.response.headers =
      [("Content-Type", "application/json")] ∧
    (metricsHandler "GET" ⟨[], [1 / 4, 1 / 2]⟩).1.response.body =
      "\x7b\x22cpu_usage\x22: " ++ fmt2 ((1 / 4 : ℚ) * 100) ++
        ", \x22memory_usage\x22: " ++ fmt2 ((1 / 2 : ℚ) * 1024 * 1024 * 1024) ++ "\x7d" ∧
    0 ≤ (1 / 4 : ℚ) * 100 ∧ (1 / 4 : ℚ) * 100 < 100 ∧
    0 ≤ (1 / 2 : ℚ) * 1024 * 1024 * 1024 ∧
    (1 / 2 : ℚ) * 1024 * 1024 * 1024 < 2 ^ 30 ∧
    0 ≤ fmt2val ((1 / 4 : ℚ) * 100) ∧ fmt2val ((1 / 4 : ℚ) * 100) ≤ 100 ∧
    0 ≤ fmt2val ((1 / 2 : ℚ) * 1024 * 1024 * 1024) ∧
    fmt2val ((1 / 2 : ℚ) * 1024 * 1024 * 1024) ≤ 2 ^ 30 :=
  metricsHandler_spec "GET" (1 / 4) (1 / 2) [] []
    (by norm_num) (by norm_num) (by norm_num) (by norm_num)

end SampleApp
